import Mathlib

/-!
Verification development for the Solomon chess engine
(src/engine/board_utils.py, src/engine/evaluation.py, src/app.py).

Python integers are arbitrary precision and non-negative wherever they hold
bitboards, so bitboards are modelled as Nat.  Square indices that can go
negative in the source (Python allows `1 << -1` to raise ValueError, and
negative list indices index from the end) are modelled as Int, and the
operations that raise in Python return Except PyError.
-/

/-- Kinds of Python exception that the translated code can raise.  The engine
catches all of them with a blanket `except Exception` in get_best_move. -/
inductive PyError where
  | attributeError
  | valueError
  | indexError
  deriving DecidableEq, Repr

instance {ε α : Type} [DecidableEq ε] [DecidableEq α] : DecidableEq (Except ε α) := fun a b =>
  match a, b with
  | .ok x, .ok y =>
    if h : x = y then .isTrue (by rw [h]) else .isFalse (fun hh => by cases hh; exact h rfl)
  | .error x, .error y =>
    if h : x = y then .isTrue (by rw [h]) else .isFalse (fun hh => by cases hh; exact h rfl)
  | .ok _, .error _ => .isFalse (fun hh => by cases hh)
  | .error _, .ok _ => .isFalse (fun hh => by cases hh)

/-- Translation of board_utils.set_bit: `bitboard | (1 << square)`. -/
def set_bit (bitboard square : Nat) : Nat :=
  bitboard ||| (1 <<< square)

/-- Translation of board_utils.clear_bit: `bitboard & ~(1 << square)`.  On a
non-negative Python int this clears bit `square`, i.e. subtracts the part of
the bitboard that overlaps with `1 << square`. -/
def clear_bit (bitboard square : Nat) : Nat :=
  bitboard - (bitboard &&& (1 <<< square))

/-- Translation of board_utils.get_bit: `(bitboard & (1 << square)) != 0`. -/
def get_bit (bitboard square : Nat) : Bool :=
  bitboard &&& (1 <<< square) != 0

/-- Variant of set_bit for a square of Python type int that may be negative:
`1 << square` raises ValueError for a negative square. -/
def set_bit_c (bitboard : Nat) (square : Int) : Except PyError Nat :=
  if square < 0 then .error .valueError else .ok (set_bit bitboard square.toNat)

/-- Variant of clear_bit for a square that may be negative (raises ValueError). -/
def clear_bit_c (bitboard : Nat) (square : Int) : Except PyError Nat :=
  if square < 0 then .error .valueError else .ok (clear_bit bitboard square.toNat)

/-- Variant of get_bit for a square that may be negative (raises ValueError). -/
def get_bit_c (bitboard : Nat) (square : Int) : Except PyError Bool :=
  if square < 0 then .error .valueError else .ok (get_bit bitboard square.toNat)

/-- Fuel-bounded helper for board_utils.count_bits (`bin(bitboard).count('1')`).
All bitboards in this development occupy squares 0..63, so 64 units of fuel
cover every loop the source performs. -/
def popcount_fuel : Nat → Nat → Nat
  | 0, _ => 0
  | fuel + 1, bitboard =>
    if bitboard = 0 then 0 else bitboard % 2 + popcount_fuel fuel (bitboard / 2)

/-- Translation of board_utils.count_bits: the number of set bits. -/
def count_bits (bitboard : Nat) : Nat :=
  popcount_fuel 64 bitboard

/-- Fuel-bounded index of the least significant set bit of a non-zero value. -/
def lsb_fuel : Nat → Nat → Nat
  | 0, _ => 0
  | fuel + 1, bitboard =>
    if bitboard &&& 1 = 1 then 0 else lsb_fuel fuel (bitboard >>> 1) + 1

/-- Index of the least significant set bit of a non-zero 64-bit bitboard. -/
def lsb_nat (bitboard : Nat) : Nat :=
  lsb_fuel 64 bitboard

/-- Translation of board_utils.lsb: `(bb & -bb).bit_length() - 1`, and -1 when
the bitboard is zero. -/
def lsb (bitboard : Nat) : Int :=
  if bitboard = 0 then -1 else (lsb_nat bitboard : Int)

/-- Squares of the set bits of a bitboard in ascending order.  This is the
Python idiom `while piece: from_sq = lsb(piece); piece = clear_bit(piece,
from_sq)` used by every move generator; 64 units of fuel cover a 64-bit
bitboard. -/
def bit_squares_fuel : Nat → Nat → List Nat
  | 0, _ => []
  | fuel + 1, bitboard =>
    if bitboard = 0 then []
    else
      let sq := lsb_nat bitboard
      sq :: bit_squares_fuel fuel (clear_bit bitboard sq)

/-- Squares of the set bits of a bitboard, in the order the source visits them. -/
def bit_squares (bitboard : Nat) : List Nat :=
  bit_squares_fuel 64 bitboard

/-- Python `a & ~b` on non-negative ints: the bits of `a` not in `b`. -/
def and_not (a b : Nat) : Nat :=
  a - (a &&& b)

/-- Modelled from the spec: direction offset north = +8 (engine/constants.py is
not in the sources; §3.2 of the spec fixes the direction offsets). -/
def NORTH : Int := 8

/-- Modelled from the spec: direction offset south = -8. -/
def SOUTH : Int := -8

/-- Modelled from the spec: diagonal offset north-east = +9. -/
def NORTH_EAST : Int := 9

/-- Modelled from the spec: diagonal offset north-west = +7. -/
def NORTH_WEST : Int := 7

/-- Modelled from the spec: diagonal offset south-east = -7. -/
def SOUTH_EAST : Int := -7

/-- Modelled from the spec: diagonal offset south-west = -9. -/
def SOUTH_WEST : Int := -9

/-- Modelled from the spec: the BitboardPieces dataclass of the missing
engine/constants.py, twelve piece bitboards plus three derived occupancy
bitboards (§3.1 of the spec), every field starting at 0. -/
structure Pieces where
  W_PAWNS : Nat := 0
  W_KNIGHTS : Nat := 0
  W_BISHOPS : Nat := 0
  W_ROOKS : Nat := 0
  W_QUEENS : Nat := 0
  W_KING : Nat := 0
  B_PAWNS : Nat := 0
  B_KNIGHTS : Nat := 0
  B_BISHOPS : Nat := 0
  B_ROOKS : Nat := 0
  B_QUEENS : Nat := 0
  B_KING : Nat := 0
  W_PIECES : Nat := 0
  B_PIECES : Nat := 0
  ALL_PIECES : Nat := 0
  deriving DecidableEq, Repr

/-- Recomputation of the derived occupancy bitboards from the twelve piece
bitboards, as written at the end of parse_fen_to_bitboards, of the legality
simulation in generate_all_moves and of make_move. -/
def recompute_combined (p : Pieces) : Pieces :=
  let w := p.W_PAWNS ||| p.W_KNIGHTS ||| p.W_BISHOPS ||| p.W_ROOKS ||| p.W_QUEENS ||| p.W_KING
  let b := p.B_PAWNS ||| p.B_KNIGHTS ||| p.B_BISHOPS ||| p.B_ROOKS ||| p.B_QUEENS ||| p.B_KING
  { p with W_PIECES := w, B_PIECES := b, ALL_PIECES := w ||| b }

/-- Knight direction table of board_utils.initialize_attack_tables. -/
def knight_dirs : List (Int × Int) :=
  [(2, 1), (1, 2), (-1, 2), (-2, 1), (-2, -1), (-1, -2), (1, -2), (2, -1)]

/-- King direction table of board_utils.initialize_attack_tables. -/
def king_dirs : List (Int × Int) :=
  [(1, 0), (1, 1), (0, 1), (-1, 1), (-1, 0), (-1, -1), (0, -1), (1, -1)]

/-- Update `tbl[i] = set_bit(tbl[i], target)` on a 64-entry attack table. -/
def table_set (tbl : List Nat) (i target : Nat) : List Nat :=
  tbl.set i (set_bit (tbl.getD i 0) target)

/-- Loop state of board_utils.initialize_attack_tables: the table being
filled and the Python variables row, col, r, c, which survive the loops. -/
structure InitState where
  tbl : List Nat
  row : Int
  col : Int
  r : Int
  c : Int

/-- Body of the `for sq in range(64)` loop of initialize_attack_tables: set
row and col from sq, then walk knight_dirs assigning `r, c = row + dr, col +
dc` and setting the in-range targets in KNIGHT_ATTACKS[sq]. -/
def knight_attacks_step (st : InitState) (sq : Nat) : InitState :=
  let row : Int := sq / 8
  let col : Int := sq % 8
  knight_dirs.foldl
    (fun (st : InitState) (d : Int × Int) =>
      let r := row + d.1
      let c := col + d.2
      let tbl :=
        if 0 ≤ r ∧ r < 8 ∧ 0 ≤ c ∧ c < 8 then table_set st.tbl sq (r * 8 + c).toNat
        else st.tbl
      { tbl := tbl, row := row, col := col, r := r, c := c })
    { st with row := row, col := col }

/-- Tables produced by board_utils.initialize_attack_tables. -/
structure AttackTables where
  knight : List Nat
  king : List Nat
  pawnW : List Nat
  pawnB : List Nat

/-- Translation of board_utils.initialize_attack_tables, preserving the
source's indentation exactly: only the knight section sits inside the
`for sq in range(64)` loop.  The king section and the pawn section execute
once, after the loop, with the leftover values of sq (63), row (7), col (7)
and the leftover r, c of the last knight iteration.  The tables start as 64
zero entries (modelled from the spec: the missing engine/constants.py holds
the empty tables that initialization is to fill, §4.2). -/
def init_attack_tables : AttackTables :=
  let zeros : List Nat := List.replicate 64 0
  let st0 : InitState := { tbl := zeros, row := 0, col := 0, r := 0, c := 0 }
  let stK := (List.range 64).foldl knight_attacks_step st0
  let sq_left : Nat := 63
  let kingSt :=
    king_dirs.foldl
      (fun (st : InitState) (d : Int × Int) =>
        let r := st.r + d.1
        let c := st.c + d.2
        let tbl :=
          if 0 ≤ r ∧ r < 8 ∧ 0 ≤ c ∧ c < 8 then table_set st.tbl sq_left (r * 8 + c).toNat
          else st.tbl
        { st with tbl := tbl, r := r, c := c })
      { stK with tbl := zeros }
  let row := stK.row
  let col := stK.col
  let pawnW0 := zeros
  let pawnB0 := zeros
  let pawnW1 :=
    if col > 0 ∧ row < 7 then table_set pawnW0 sq_left ((sq_left : Int) + NORTH_WEST).toNat
    else pawnW0
  let pawnB1 :=
    if col > 0 ∧ row > 0 then table_set pawnB0 sq_left ((sq_left : Int) + SOUTH_WEST).toNat
    else pawnB0
  let pawnW2 :=
    if col < 7 ∧ row < 7 then table_set pawnW1 sq_left ((sq_left : Int) + NORTH_EAST).toNat
    else pawnW1
  let pawnB2 :=
    if col < 7 ∧ row > 0 then table_set pawnB1 sq_left ((sq_left : Int) + SOUTH_EAST).toNat
    else pawnB1
  { knight := stK.tbl, king := kingSt.tbl, pawnW := pawnW2, pawnB := pawnB2 }

/-- KNIGHT_ATTACKS as left by initialize_attack_tables at module load. -/
def KNIGHT_ATTACKS : List Nat := init_attack_tables.knight

/-- KING_ATTACKS as left by initialize_attack_tables at module load. -/
def KING_ATTACKS : List Nat := init_attack_tables.king

/-- PAWN_ATTACKS_WHITE as left by initialize_attack_tables at module load. -/
def PAWN_ATTACKS_WHITE : List Nat := init_attack_tables.pawnW

/-- PAWN_ATTACKS_BLACK as left by initialize_attack_tables at module load. -/
def PAWN_ATTACKS_BLACK : List Nat := init_attack_tables.pawnB

/-- Python list indexing for the 64-entry attack tables: a negative index
counts from the end, an index out of range raises IndexError. -/
def pyListGet (l : List Nat) (i : Int) : Except PyError Nat :=
  if 0 ≤ i then
    match l.get? i.toNat with
    | some v => .ok v
    | none => .error .indexError
  else
    let j : Int := (l.length : Int) + i
    if 0 ≤ j then
      match l.get? j.toNat with
      | some v => .ok v
      | none => .error .indexError
    else .error .indexError

/-- A move is a (from-square, to-square) pair, as in the source. -/
abbrev Move := Nat × Nat

/-- Translation of board_utils.generate_knight_moves: iterate the knights,
mask the precomputed targets with `~own_pieces`, and emit one move per
remaining target. -/
def generate_knight_moves (knights own_pieces : Nat) : List Move :=
  (bit_squares knights).foldl
    (fun (moves : List Move) (from_sq : Nat) =>
      let targets := and_not (KNIGHT_ATTACKS.getD from_sq 0) own_pieces
      moves ++ (bit_squares targets).map (fun to_sq => (from_sq, to_sq)))
    []

/-- Translation of board_utils.generate_pawn_moves: single push, double push
from the starting rank, then the capture targets from the precomputed pawn
attack tables. -/
def generate_pawn_moves (pawns all_pieces enemy_pieces : Nat) (is_white : Bool) : List Move :=
  let forward : Int := if is_white then NORTH else SOUTH
  let double_forward : Int := forward * 2
  let start_rank : Nat := if is_white then 1 else 6
  (bit_squares pawns).foldl
    (fun (moves : List Move) (from_sq : Nat) =>
      let to_sq : Int := (from_sq : Int) + forward
      let moves :=
        if 0 ≤ to_sq ∧ to_sq < 64 then
          if get_bit all_pieces to_sq.toNat then moves
          else
            let moves := moves ++ [(from_sq, to_sq.toNat)]
            if from_sq / 8 = start_rank then
              let to_sq_double : Int := (from_sq : Int) + double_forward
              if 0 ≤ to_sq_double ∧ to_sq_double < 64 then
                if get_bit all_pieces to_sq_double.toNat then moves
                else moves ++ [(from_sq, to_sq_double.toNat)]
              else moves
            else moves
        else moves
      let attack_tbl := if is_white then PAWN_ATTACKS_WHITE else PAWN_ATTACKS_BLACK
      let attack_board := attack_tbl.getD from_sq 0 &&& enemy_pieces
      moves ++ (bit_squares attack_board).map (fun to_sq => (from_sq, to_sq)))
    []

/-- One diagonal while-loop of board_utils.get_bishop_attacks: step (r, c) by
(dr, dc) while `cond` holds, adding each square and stopping after a blocker.
The source's loops run at most 8 iterations for any square this development
reaches; setting a bit at a negative square raises ValueError as in Python. -/
def bishop_ray (fuel : Nat) (cond : Int → Int → Bool) (r c dr dc : Int) (occupied attacks : Nat) :
    Except PyError Nat :=
  match fuel with
  | 0 => .ok attacks
  | fuel + 1 =>
    if cond r c then do
      let target : Int := r * 8 + c
      let attacks ← set_bit_c attacks target
      let hit ← get_bit_c occupied target
      if hit then .ok attacks
      else bishop_ray fuel cond (r + dr) (c + dc) dr dc occupied attacks
    else .ok attacks

/-- Translation of board_utils.get_bishop_attacks: the four diagonal
ray-walks, with the source's per-ray loop conditions. -/
def get_bishop_attacks (square : Int) (occupied : Nat) : Except PyError Nat := do
  let row := square.fdiv 8
  let col := square.emod 8
  let a ← bishop_ray 8 (fun r c => decide (r ≥ 0 ∧ c < 8)) (row - 1) (col + 1) (-1) 1 occupied 0
  let a ← bishop_ray 8 (fun r c => decide (r ≥ 0 ∧ c ≥ 0)) (row - 1) (col - 1) (-1) (-1) occupied a
  let a ← bishop_ray 8 (fun r c => decide (r < 8 ∧ c < 8)) (row + 1) (col + 1) 1 1 occupied a
  bishop_ray 8 (fun r c => decide (r < 8 ∧ c ≥ 0)) (row + 1) (col - 1) 1 (-1) occupied a

/-- Python `range(a, -1, -1)`: a, a-1, ..., 0 (empty when a < 0). -/
def int_range_desc (a : Int) : List Int :=
  (List.range (a + 1).toNat).map (fun i => a - (i : Int))

/-- Python `range(a, b)`: a, a+1, ..., b-1 (empty when a ≥ b). -/
def int_range_asc (a b : Int) : List Int :=
  (List.range (b - a).toNat).map (fun i => a + (i : Int))

/-- One orthogonal for-loop of board_utils.get_rook_attacks: visit the listed
squares, add each, and stop after a blocker. -/
def rook_ray (cells : List Int) (occupied attacks : Nat) : Except PyError Nat :=
  match cells with
  | [] => .ok attacks
  | target :: rest => do
    let attacks ← set_bit_c attacks target
    let hit ← get_bit_c occupied target
    if hit then .ok attacks else rook_ray rest occupied attacks

/-- Translation of board_utils.get_rook_attacks: the four orthogonal
for-loops over Python ranges. -/
def get_rook_attacks (square : Int) (occupied : Nat) : Except PyError Nat := do
  let row := square.fdiv 8
  let col := square.emod 8
  let a ← rook_ray ((int_range_desc (row - 1)).map (fun r => r * 8 + col)) occupied 0
  let a ← rook_ray ((int_range_asc (row + 1) 8).map (fun r => r * 8 + col)) occupied a
  let a ← rook_ray ((int_range_asc (col + 1) 8).map (fun c => row * 8 + c)) occupied a
  rook_ray ((int_range_desc (col - 1)).map (fun c => row * 8 + c)) occupied a

/-- Translation of board_utils.get_queen_attacks: bishop plus rook attacks. -/
def get_queen_attacks (square : Int) (occupied : Nat) : Except PyError Nat := do
  let b ← get_bishop_attacks square occupied
  let r ← get_rook_attacks square occupied
  return b ||| r

/-- Moves of one sliding piece: its attack squares masked with `~own_pieces`,
as in generate_bishop_moves, generate_rook_moves and generate_queen_moves. -/
def sliding_moves_from (from_sq : Nat) (attacks own_pieces : Nat) : List Move :=
  (bit_squares (and_not attacks own_pieces)).map (fun to_sq => (from_sq, to_sq))

/-- Translation of board_utils.generate_bishop_moves.  The attack computation
cannot raise here because every iterated square is in 0..63, but the
translation keeps the exception type of the ray-walks. -/
def generate_bishop_moves (bishops own_pieces all_pieces : Nat) : Except PyError (List Move) :=
  (bit_squares bishops).foldlM
    (fun (moves : List Move) (from_sq : Nat) => do
      let attacks ← get_bishop_attacks (from_sq : Int) all_pieces
      return moves ++ sliding_moves_from from_sq attacks own_pieces)
    []

/-- Translation of board_utils.generate_rook_moves. -/
def generate_rook_moves (rooks own_pieces all_pieces : Nat) : Except PyError (List Move) :=
  (bit_squares rooks).foldlM
    (fun (moves : List Move) (from_sq : Nat) => do
      let attacks ← get_rook_attacks (from_sq : Int) all_pieces
      return moves ++ sliding_moves_from from_sq attacks own_pieces)
    []

/-- Translation of board_utils.generate_queen_moves. -/
def generate_queen_moves (queens own_pieces all_pieces : Nat) : Except PyError (List Move) :=
  (bit_squares queens).foldlM
    (fun (moves : List Move) (from_sq : Nat) => do
      let attacks ← get_queen_attacks (from_sq : Int) all_pieces
      return moves ++ sliding_moves_from from_sq attacks own_pieces)
    []

/-- Translation of board_utils.generate_king_moves: empty for an empty king
bitboard, else the precomputed targets masked with `~own_pieces`. -/
def generate_king_moves (king own_pieces : Nat) : List Move :=
  if king = 0 then []
  else
    let from_sq := lsb_nat king
    (bit_squares (and_not (KING_ATTACKS.getD from_sq 0) own_pieces)).map
      (fun to_sq => (from_sq, to_sq))

/-- Translation of board_utils.is_square_attacked.  The source computes the
pawn checks first (each `get_bit` at `square ± 7/9` raises ValueError when
that index is negative), then intersects the knight and king tables, then
computes both sliding attack sets before testing them. -/
def is_square_attacked (square : Int) (p : Pieces) (by_white : Bool) : Except PyError Bool := do
  if by_white then
    if square.emod 8 > 0 then
      let b ← get_bit_c p.W_PAWNS (square - 9)
      if b then return true
    if square.emod 8 < 7 then
      let b ← get_bit_c p.W_PAWNS (square - 7)
      if b then return true
  else
    if square.emod 8 > 0 then
      let b ← get_bit_c p.B_PAWNS (square + 7)
      if b then return true
    if square.emod 8 < 7 then
      let b ← get_bit_c p.B_PAWNS (square + 9)
      if b then return true
  let knight_tbl ← pyListGet KNIGHT_ATTACKS square
  let knight_attackers := if by_white then p.W_KNIGHTS else p.B_KNIGHTS
  if knight_tbl &&& knight_attackers ≠ 0 then return true
  let king_tbl ← pyListGet KING_ATTACKS square
  let king_board := if by_white then p.W_KING else p.B_KING
  if king_tbl &&& king_board ≠ 0 then return true
  let bishop_attacks ← get_bishop_attacks square p.ALL_PIECES
  let rook_attacks ← get_rook_attacks square p.ALL_PIECES
  if by_white then
    if bishop_attacks &&& (p.W_BISHOPS ||| p.W_QUEENS) ≠ 0 then return true
    if rook_attacks &&& (p.W_ROOKS ||| p.W_QUEENS) ≠ 0 then return true
    return false
  else
    if bishop_attacks &&& (p.B_BISHOPS ||| p.B_QUEENS) ≠ 0 then return true
    if rook_attacks &&& (p.B_ROOKS ||| p.B_QUEENS) ≠ 0 then return true
    return false

/-- Translation of board_utils.is_in_check: whether the side to move's king
square is attacked by the opponent (`lsb` of an empty king bitboard is -1). -/
def is_in_check (p : Pieces) (white_to_move : Bool) : Except PyError Bool :=
  let king := if white_to_move then p.W_KING else p.B_KING
  is_square_attacked (lsb king) p (!white_to_move)

/-- Translation of board_utils.mirror_square: `square ^ 56`. -/
def mirror_square (square : Nat) : Nat :=
  square ^^^ 56

/-- Modelled from the spec: the Square constants of the missing
engine/constants.py, in the coordinate system of §3.2 (square 0 = a1,
index = rank * 8 + file). -/
def Square.B1 : Nat := 1
def Square.C1 : Nat := 2
def Square.D1 : Nat := 3
def Square.E1 : Nat := 4
def Square.F1 : Nat := 5
def Square.G1 : Nat := 6
def Square.B8 : Nat := 57
def Square.C8 : Nat := 58
def Square.D8 : Nat := 59
def Square.E8 : Nat := 60
def Square.F8 : Nat := 61
def Square.G8 : Nat := 62

/-- Translation of board_utils.generate_castling_moves: skip everything when
the side is in check, then for each retained right require the in-between
squares empty and the two checked squares unattacked. -/
def generate_castling_moves (p : Pieces) (castling_rights : String) (is_white : Bool) :
    Except PyError (List Move) := do
  let inCheck ← is_in_check p is_white
  if inCheck then return []
  if is_white then
    let ks ←
      if castling_rights.data.contains 'K' then
        if ¬get_bit p.ALL_PIECES Square.F1 ∧ ¬get_bit p.ALL_PIECES Square.G1 then do
          let a1 ← is_square_attacked (Square.F1 : Int) p false
          if a1 then pure ([] : List Move)
          else do
            let a2 ← is_square_attacked (Square.G1 : Int) p false
            pure (if a2 then [] else [(Square.E1, Square.G1)])
        else pure []
      else pure []
    let qs ←
      if castling_rights.data.contains 'Q' then
        if ¬get_bit p.ALL_PIECES Square.D1 ∧ ¬get_bit p.ALL_PIECES Square.C1 ∧
            ¬get_bit p.ALL_PIECES Square.B1 then do
          let a1 ← is_square_attacked (Square.D1 : Int) p false
          if a1 then pure ([] : List Move)
          else do
            let a2 ← is_square_attacked (Square.C1 : Int) p false
            pure (if a2 then [] else [(Square.E1, Square.C1)])
        else pure []
      else pure []
    return ks ++ qs
  else
    let ks ←
      if castling_rights.data.contains 'k' then
        if ¬get_bit p.ALL_PIECES Square.F8 ∧ ¬get_bit p.ALL_PIECES Square.G8 then do
          let a1 ← is_square_attacked (Square.F8 : Int) p true
          if a1 then pure ([] : List Move)
          else do
            let a2 ← is_square_attacked (Square.G8 : Int) p true
            pure (if a2 then [] else [(Square.E8, Square.G8)])
        else pure []
      else pure []
    let qs ←
      if castling_rights.data.contains 'q' then
        if ¬get_bit p.ALL_PIECES Square.D8 ∧ ¬get_bit p.ALL_PIECES Square.C8 ∧
            ¬get_bit p.ALL_PIECES Square.B8 then do
          let a1 ← is_square_attacked (Square.D8 : Int) p true
          if a1 then pure ([] : List Move)
          else do
            let a2 ← is_square_attacked (Square.C8 : Int) p true
            pure (if a2 then [] else [(Square.E8, Square.C8)])
        else pure []
      else pure []
    return ks ++ qs

/-- Translation of board_utils.generate_en_passant_moves.  The target square
comes from the position's game state; the source requires `target // 8 == 2`
for White and `target // 8 == 5` for Black and probes for friendly pawns at
`target + 7 / + 9` (White) or `target - 9 / - 7` (Black). -/
def generate_en_passant_moves (p : Pieces) (en_passant_square : Int) (is_white : Bool) :
    List Move :=
  if is_white then
    if en_passant_square.fdiv 8 = 2 then
      let left_square := en_passant_square + 7
      let ms :=
        if left_square.emod 8 ≠ 7 ∧ get_bit p.W_PAWNS left_square.toNat then
          [(left_square.toNat, en_passant_square.toNat)]
        else []
      let right_square := en_passant_square + 9
      if right_square.emod 8 ≠ 0 ∧ get_bit p.W_PAWNS right_square.toNat then
        ms ++ [(right_square.toNat, en_passant_square.toNat)]
      else ms
    else []
  else
    if en_passant_square.fdiv 8 = 5 then
      let left_square := en_passant_square - 9
      let ms :=
        if left_square.emod 8 ≠ 7 ∧ get_bit p.B_PAWNS left_square.toNat then
          [(left_square.toNat, en_passant_square.toNat)]
        else []
      let right_square := en_passant_square - 7
      if right_square.emod 8 ≠ 0 ∧ get_bit p.B_PAWNS right_square.toNat then
        ms ++ [(right_square.toNat, en_passant_square.toNat)]
      else ms
    else []

/-- Game state dictionary built by parse_fen_to_bitboards: side to move,
castling-rights string, optional en passant target index, halfmove clock and
fullmove number. -/
structure GameState where
  side_to_move : String
  castling_rights : String
  en_passant : Option Int
  halfmove_clock : Int
  fullmove_number : Int
  deriving DecidableEq, Repr

/-- Translation of the provisional move executed inside generate_all_moves
(lines 474-548 of evaluation.py): copy the bitboards, move the first friendly
bitboard that holds `from_sq`, clear every enemy piece except the king at
`to_sq`, and recompute the derived occupancy. -/
def temp_apply (p : Pieces) (is_white : Bool) (from_sq to_sq : Nat) : Pieces :=
  if is_white then
    let np :=
      if get_bit p.W_PAWNS from_sq then
        { p with W_PAWNS := set_bit (clear_bit p.W_PAWNS from_sq) to_sq }
      else if get_bit p.W_KNIGHTS from_sq then
        { p with W_KNIGHTS := set_bit (clear_bit p.W_KNIGHTS from_sq) to_sq }
      else if get_bit p.W_BISHOPS from_sq then
        { p with W_BISHOPS := set_bit (clear_bit p.W_BISHOPS from_sq) to_sq }
      else if get_bit p.W_ROOKS from_sq then
        { p with W_ROOKS := set_bit (clear_bit p.W_ROOKS from_sq) to_sq }
      else if get_bit p.W_QUEENS from_sq then
        { p with W_QUEENS := set_bit (clear_bit p.W_QUEENS from_sq) to_sq }
      else if get_bit p.W_KING from_sq then
        { p with W_KING := set_bit (clear_bit p.W_KING from_sq) to_sq }
      else p
    let np :=
      { np with
        B_PAWNS := clear_bit np.B_PAWNS to_sq
        B_KNIGHTS := clear_bit np.B_KNIGHTS to_sq
        B_BISHOPS := clear_bit np.B_BISHOPS to_sq
        B_ROOKS := clear_bit np.B_ROOKS to_sq
        B_QUEENS := clear_bit np.B_QUEENS to_sq }
    recompute_combined np
  else
    let np :=
      if get_bit p.B_PAWNS from_sq then
        { p with B_PAWNS := set_bit (clear_bit p.B_PAWNS from_sq) to_sq }
      else if get_bit p.B_KNIGHTS from_sq then
        { p with B_KNIGHTS := set_bit (clear_bit p.B_KNIGHTS from_sq) to_sq }
      else if get_bit p.B_BISHOPS from_sq then
        { p with B_BISHOPS := set_bit (clear_bit p.B_BISHOPS from_sq) to_sq }
      else if get_bit p.B_ROOKS from_sq then
        { p with B_ROOKS := set_bit (clear_bit p.B_ROOKS from_sq) to_sq }
      else if get_bit p.B_QUEENS from_sq then
        { p with B_QUEENS := set_bit (clear_bit p.B_QUEENS from_sq) to_sq }
      else if get_bit p.B_KING from_sq then
        { p with B_KING := set_bit (clear_bit p.B_KING from_sq) to_sq }
      else p
    let np :=
      { np with
        W_PAWNS := clear_bit np.W_PAWNS to_sq
        W_KNIGHTS := clear_bit np.W_KNIGHTS to_sq
        W_BISHOPS := clear_bit np.W_BISHOPS to_sq
        W_ROOKS := clear_bit np.W_ROOKS to_sq
        W_QUEENS := clear_bit np.W_QUEENS to_sq }
    recompute_combined np

/-- Translation of evaluation.generate_all_moves: concatenate the per-piece
pseudo-legal moves, castling and en passant, then keep the moves after which
`king_sq` is not attacked.  The source computes `king_sq = lsb(king)` once
before the loop and reassigns it inside the loop whenever the examined move
starts on the king square, so the reassigned value persists for the moves
examined afterwards; the fold threads that state exactly. -/
def generate_all_moves (p : Pieces) (gs : GameState) : Except PyError (List Move) := do
  let is_white := gs.side_to_move == "w"
  let base :=
    if is_white then do
      let bishops ← generate_bishop_moves p.W_BISHOPS p.W_PIECES p.ALL_PIECES
      let rooks ← generate_rook_moves p.W_ROOKS p.W_PIECES p.ALL_PIECES
      let queens ← generate_queen_moves p.W_QUEENS p.W_PIECES p.ALL_PIECES
      let castle ← generate_castling_moves p gs.castling_rights true
      pure (generate_pawn_moves p.W_PAWNS p.ALL_PIECES p.B_PIECES true
        ++ generate_knight_moves p.W_KNIGHTS p.W_PIECES
        ++ bishops ++ rooks ++ queens
        ++ generate_king_moves p.W_KING p.W_PIECES
        ++ castle)
    else do
      let bishops ← generate_bishop_moves p.B_BISHOPS p.B_PIECES p.ALL_PIECES
      let rooks ← generate_rook_moves p.B_ROOKS p.B_PIECES p.ALL_PIECES
      let queens ← generate_queen_moves p.B_QUEENS p.B_PIECES p.ALL_PIECES
      let castle ← generate_castling_moves p gs.castling_rights false
      pure (generate_pawn_moves p.B_PAWNS p.ALL_PIECES p.W_PIECES false
        ++ generate_knight_moves p.B_KNIGHTS p.B_PIECES
        ++ bishops ++ rooks ++ queens
        ++ generate_king_moves p.B_KING p.B_PIECES
        ++ castle)
  let pseudo ← base
  let moves :=
    pseudo ++
      (match gs.en_passant with
       | some e => generate_en_passant_moves p e is_white
       | none => [])
  let king := if is_white then p.W_KING else p.B_KING
  let res ← moves.foldlM
    (fun (acc : List Move × Int) (mv : Move) => do
      let is_king_move := get_bit king mv.1
      let np := temp_apply p is_white mv.1 mv.2
      let king_sq := if is_king_move then (mv.2 : Int) else acc.2
      let attacked ← is_square_attacked king_sq np (!is_white)
      pure (if attacked then acc.1 else acc.1 ++ [mv], king_sq))
    ([], lsb king)
  return res.1

/-- Python `str.replace(c, '')` for a single character: drop every
occurrence of the character. -/
def remove_char (s : String) (c : Char) : String :=
  String.mk (s.data.filter (fun x => x ≠ c))

/-- Translation of the remainder of evaluation.make_move (lines 566-763),
the code after the entry print.  In the source this remainder is unreachable:
the print on line 564 raises first (see make_move below).  It is kept to
document the intended executor: the new game state first flips the side to
move, clears the en passant target and bumps the fullmove number after a
Black move; a capture sets the halfmove clock to 0; then the branch of the
moving piece runs (each non-pawn branch increments the clock, even after the
capture reset); finally every enemy piece except the king is cleared at the
target square and the occupancy is recomputed.  The only statement in this
remainder that can raise is the Black en-passant removal
`clear_bit(W_PAWNS, to_sq - 8)` when `to_sq < 8`. -/
def make_move_body (p : Pieces) (m : Move) (gs : GameState) :
    Except PyError (Pieces × GameState) := do
  let from_sq := m.1
  let to_sq := m.2
  let is_white := gs.side_to_move == "w"
  let gs1 : GameState :=
    { gs with
      side_to_move := if is_white then "b" else "w"
      en_passant := none
      fullmove_number := if is_white then gs.fullmove_number else gs.fullmove_number + 1 }
  let gs2 := if get_bit p.ALL_PIECES to_sq then { gs1 with halfmove_clock := 0 } else gs1
  let (np, gs3) ←
    if is_white then
      if get_bit p.W_PAWNS from_sq then
        let gsP := { gs2 with halfmove_clock := 0 }
        if to_sq / 8 = 0 then
          pure ({ p with
                   W_PAWNS := clear_bit p.W_PAWNS from_sq
                   W_QUEENS := set_bit p.W_QUEENS to_sq }, gsP)
        else
          let np := { p with W_PAWNS := set_bit (clear_bit p.W_PAWNS from_sq) to_sq }
          let gsP :=
            if (to_sq : Int) - (from_sq : Int) = -16 then
              { gsP with en_passant := some ((from_sq : Int) - 8) }
            else gsP
          if gs.en_passant = some (to_sq : Int) then
            pure ({ np with B_PAWNS := clear_bit np.B_PAWNS (to_sq + 8) }, gsP)
          else pure (np, gsP)
      else if get_bit p.W_KNIGHTS from_sq then
        pure ({ p with W_KNIGHTS := set_bit (clear_bit p.W_KNIGHTS from_sq) to_sq },
          { gs2 with halfmove_clock := gs2.halfmove_clock + 1 })
      else if get_bit p.W_BISHOPS from_sq then
        pure ({ p with W_BISHOPS := set_bit (clear_bit p.W_BISHOPS from_sq) to_sq },
          { gs2 with halfmove_clock := gs2.halfmove_clock + 1 })
      else if get_bit p.W_ROOKS from_sq then
        let gsR := { gs2 with halfmove_clock := gs2.halfmove_clock + 1 }
        let gsR :=
          if from_sq = 0 then { gsR with castling_rights := remove_char gsR.castling_rights 'Q' }
          else if from_sq = 7 then
            { gsR with castling_rights := remove_char gsR.castling_rights 'K' }
          else gsR
        pure ({ p with W_ROOKS := set_bit (clear_bit p.W_ROOKS from_sq) to_sq }, gsR)
      else if get_bit p.W_QUEENS from_sq then
        pure ({ p with W_QUEENS := set_bit (clear_bit p.W_QUEENS from_sq) to_sq },
          { gs2 with halfmove_clock := gs2.halfmove_clock + 1 })
      else if get_bit p.W_KING from_sq then
        let gsK :=
          { gs2 with
            halfmove_clock := gs2.halfmove_clock + 1
            castling_rights := remove_char (remove_char gs2.castling_rights 'K') 'Q' }
        let np := { p with W_KING := set_bit (clear_bit p.W_KING from_sq) to_sq }
        let np :=
          if from_sq = 4 then
            if to_sq = 6 then
              { np with W_ROOKS := set_bit (clear_bit np.W_ROOKS 7) 5 }
            else if to_sq = 2 then
              { np with W_ROOKS := set_bit (clear_bit np.W_ROOKS 0) 3 }
            else np
          else np
        pure (np, gsK)
      else pure (p, gs2)
    else
      if get_bit p.B_PAWNS from_sq then
        let gsP := { gs2 with halfmove_clock := 0 }
        if to_sq / 8 = 7 then
          pure ({ p with
                   B_PAWNS := clear_bit p.B_PAWNS from_sq
                   B_QUEENS := set_bit p.B_QUEENS to_sq }, gsP)
        else
          let np := { p with B_PAWNS := set_bit (clear_bit p.B_PAWNS from_sq) to_sq }
          let gsP :=
            if (to_sq : Int) - (from_sq : Int) = 16 then
              { gsP with en_passant := some ((from_sq : Int) + 8) }
            else gsP
          if gs.en_passant = some (to_sq : Int) then do
            let cleared ← clear_bit_c np.W_PAWNS ((to_sq : Int) - 8)
            pure ({ np with W_PAWNS := cleared }, gsP)
          else pure (np, gsP)
      else if get_bit p.B_KNIGHTS from_sq then
        pure ({ p with B_KNIGHTS := set_bit (clear_bit p.B_KNIGHTS from_sq) to_sq },
          { gs2 with halfmove_clock := gs2.halfmove_clock + 1 })
      else if get_bit p.B_BISHOPS from_sq then
        pure ({ p with B_BISHOPS := set_bit (clear_bit p.B_BISHOPS from_sq) to_sq },
          { gs2 with halfmove_clock := gs2.halfmove_clock + 1 })
      else if get_bit p.B_ROOKS from_sq then
        let gsR := { gs2 with halfmove_clock := gs2.halfmove_clock + 1 }
        let gsR :=
          if from_sq = 56 then
            { gsR with castling_rights := remove_char gsR.castling_rights 'q' }
          else if from_sq = 63 then
            { gsR with castling_rights := remove_char gsR.castling_rights 'k' }
          else gsR
        pure ({ p with B_ROOKS := set_bit (clear_bit p.B_ROOKS from_sq) to_sq }, gsR)
      else if get_bit p.B_QUEENS from_sq then
        pure ({ p with B_QUEENS := set_bit (clear_bit p.B_QUEENS from_sq) to_sq },
          { gs2 with halfmove_clock := gs2.halfmove_clock + 1 })
      else if get_bit p.B_KING from_sq then
        let gsK :=
          { gs2 with
            halfmove_clock := gs2.halfmove_clock + 1
            castling_rights := remove_char (remove_char gs2.castling_rights 'k') 'q' }
        let np := { p with B_KING := set_bit (clear_bit p.B_KING from_sq) to_sq }
        let np :=
          if from_sq = 60 then
            if to_sq = 62 then
              { np with B_ROOKS := set_bit (clear_bit np.B_ROOKS 63) 61 }
            else if to_sq = 58 then
              { np with B_ROOKS := set_bit (clear_bit np.B_ROOKS 56) 59 }
            else np
          else np
        pure (np, gsK)
      else pure (p, gs2)
  let np :=
    if is_white then
      { np with
        B_PAWNS := clear_bit np.B_PAWNS to_sq
        B_KNIGHTS := clear_bit np.B_KNIGHTS to_sq
        B_BISHOPS := clear_bit np.B_BISHOPS to_sq
        B_ROOKS := clear_bit np.B_ROOKS to_sq
        B_QUEENS := clear_bit np.B_QUEENS to_sq }
    else
      { np with
        W_PAWNS := clear_bit np.W_PAWNS to_sq
        W_KNIGHTS := clear_bit np.W_KNIGHTS to_sq
        W_BISHOPS := clear_bit np.W_BISHOPS to_sq
        W_ROOKS := clear_bit np.W_ROOKS to_sq
        W_QUEENS := clear_bit np.W_QUEENS to_sq }
  return (recompute_combined np, gs3)

/-- Translation of board_utils.algebraic_to_index: `file = ord(s[0]) -
ord('a')`, `rank = 8 - int(s[1])`, result `rank * 8 + file`.  Indexing a
too-short string raises IndexError and `int` of a non-digit raises
ValueError. -/
def algebraic_to_index (algebraic : String) : Except PyError Int := do
  let c0 ←
    match algebraic.data.get? 0 with
    | some c => .ok c
    | none => .error .indexError
  let c1 ←
    match algebraic.data.get? 1 with
    | some c => .ok c
    | none => .error .indexError
  let file : Int := (c0.toNat : Int) - 97
  if c1.isDigit then
    let rank : Int := 8 - ((c1.toNat : Int) - 48)
    return rank * 8 + file
  else .error .valueError

/-- Translation of board_utils.index_to_algebraic: the file letter
`chr(index % 8 + ord('a'))` followed by the rank number `8 - index // 8`. -/
def index_to_algebraic (index : Nat) : String :=
  let file := Char.ofNat (index % 8 + 97)
  let rank : Int := 8 - ((index / 8 : Nat) : Int)
  String.mk [file] ++ toString rank

/-- Call target of the debug printing in evaluation.get_best_move and of
make_move: board_utils.py defines no function square_to_algebraic, so in
Python the attribute lookup `board_utils.square_to_algebraic` raises
AttributeError whenever it is executed. -/
def square_to_algebraic (_square : Nat) : Except PyError String :=
  .error .attributeError

/-- Translation of evaluation.make_move.  Its first statement (line 564)
prints the move using board_utils.square_to_algebraic, which does not exist,
so every call raises AttributeError before any bitboard, clock or castling
state is touched; the remainder of the function (make_move_body) is
unreachable in the source. -/
def make_move (p : Pieces) (m : Move) (gs : GameState) : Except PyError (Pieces × GameState) := do
  let from_sq := m.1
  let to_sq := m.2
  let _is_white := gs.side_to_move == "w"
  let _ ← square_to_algebraic from_sq
  let _ ← square_to_algebraic to_sq
  make_move_body p m gs

/-- Helper for the split in parse_fen_to_bitboards: Python `s.split(' ')`,
which cuts at every single space and keeps empty fields. -/
def split_space_aux : List Char → List Char → List String
  | [], acc => [String.mk acc.reverse]
  | ch :: rest, acc =>
    if ch = ' ' then String.mk acc.reverse :: split_space_aux rest []
    else split_space_aux rest (ch :: acc)

/-- Python `fen.split(' ')` on a string. -/
def py_split_space (s : String) : List String :=
  split_space_aux s.data []

/-- Python `int(s)` on a string: optional surrounding whitespace, an optional
sign, then at least one digit; anything else raises ValueError. -/
def py_int_of_string (s : String) : Except PyError Int :=
  let t := ((s.data.dropWhile Char.isWhitespace).reverse.dropWhile Char.isWhitespace).reverse
  let signDigits : Int × List Char :=
    match t with
    | '-' :: rest => (-1, rest)
    | '+' :: rest => (1, rest)
    | _ => (1, t)
  let sign := signDigits.1
  let digits := signDigits.2
  if digits.length > 0 ∧ digits.all Char.isDigit then
    .ok (sign * ((digits.foldl (fun a c => a * 10 + (c.toNat - 48)) 0 : Nat) : Int))
  else .error .valueError

/-- Board-scan step of parse_fen_to_bitboards: `/` moves down a rank, a digit
skips files, a recognised piece letter sets its bit (raising ValueError if
the running square index has gone negative, as `1 << square` would), and any
other character just advances the square. -/
def fen_scan_char (st : Pieces × Int) (ch : Char) : Except PyError (Pieces × Int) := do
  let (p, square) := st
  if ch = '/' then return (p, square - 16)
  else if ch.isDigit then return (p, square + ((ch.toNat - 48 : Nat) : Int))
  else
    let p ←
      if ch = 'P' then do pure { p with W_PAWNS := ← set_bit_c p.W_PAWNS square }
      else if ch = 'N' then do pure { p with W_KNIGHTS := ← set_bit_c p.W_KNIGHTS square }
      else if ch = 'B' then do pure { p with W_BISHOPS := ← set_bit_c p.W_BISHOPS square }
      else if ch = 'R' then do pure { p with W_ROOKS := ← set_bit_c p.W_ROOKS square }
      else if ch = 'Q' then do pure { p with W_QUEENS := ← set_bit_c p.W_QUEENS square }
      else if ch = 'K' then do pure { p with W_KING := ← set_bit_c p.W_KING square }
      else if ch = 'p' then do pure { p with B_PAWNS := ← set_bit_c p.B_PAWNS square }
      else if ch = 'n' then do pure { p with B_KNIGHTS := ← set_bit_c p.B_KNIGHTS square }
      else if ch = 'b' then do pure { p with B_BISHOPS := ← set_bit_c p.B_BISHOPS square }
      else if ch = 'r' then do pure { p with B_ROOKS := ← set_bit_c p.B_ROOKS square }
      else if ch = 'q' then do pure { p with B_QUEENS := ← set_bit_c p.B_QUEENS square }
      else if ch = 'k' then do pure { p with B_KING := ← set_bit_c p.B_KING square }
      else pure p
    return (p, square + 1)

/-- Translation of board_utils.parse_fen_to_bitboards: split the FEN on
single spaces, read side to move, castling rights, en passant target,
halfmove and fullmove (with the source's defaults when fields are missing),
then scan the board field starting at square 56 and recompute occupancy. -/
def parse_fen_to_bitboards (fen : String) : Except PyError (Pieces × GameState) := do
  let fen_parts := py_split_space fen
  let board_part := fen_parts.headD ""
  let side := fen_parts.getD 1 "w"
  let castling := fen_parts.getD 2 ""
  let ep ←
    if fen_parts.length > 3 ∧ fen_parts.getD 3 "" ≠ "-" then do
      let i ← algebraic_to_index (fen_parts.getD 3 "")
      pure (some i)
    else pure (none : Option Int)
  let half ← if fen_parts.length > 4 then py_int_of_string (fen_parts.getD 4 "") else pure (0 : Int)
  let full ← if fen_parts.length > 5 then py_int_of_string (fen_parts.getD 5 "") else pure (1 : Int)
  let scanned ← board_part.data.foldlM fen_scan_char (({} : Pieces), (56 : Int))
  return (recompute_combined scanned.1,
    { side_to_move := side
      castling_rights := castling
      en_passant := ep
      halfmove_clock := half
      fullmove_number := full })

/-- Translation of evaluation.get_game_phase: raw phase = knights + bishops +
2 rooks + 4 queens over both colors, scaled by `(phase * 256 + 12) // 24` and
capped above at 256. -/
def get_game_phase (p : Pieces) : Nat :=
  let knight_count := count_bits (p.W_KNIGHTS ||| p.B_KNIGHTS)
  let bishop_count := count_bits (p.W_BISHOPS ||| p.B_BISHOPS)
  let rook_count := count_bits (p.W_ROOKS ||| p.B_ROOKS)
  let queen_count := count_bits (p.W_QUEENS ||| p.B_QUEENS)
  let phase := knight_count + bishop_count + 2 * rook_count + 4 * queen_count
  let phase := (phase * 256 + 12) / 24
  if phase > 256 then 256 else phase

/-- Result dictionary of evaluation.get_best_move: the move string (absent
for the no-move and fallback outcomes), the score and the node count. -/
structure EngineResult where
  move : Option String
  score : Int
  nodes : Nat
  deriving DecidableEq, Repr

/-- Body of ChessEvaluator.get_best_move up to its first uncatchable failure:
parse the FEN, generate the legal moves, and run the debug-print loop over
the first five moves.  When the move list is empty the loop is skipped and
the `if not all_moves` branch returns the no-move result; when it is
non-empty the first iteration calls board_utils.square_to_algebraic, which
raises AttributeError, so the rest of the function (move ordering, the
iterative-deepening loop and minimax) is unreachable and is not modelled
beyond the raise. -/
def getBestMoveBody (fen : String) (_depth : Int) : Except PyError EngineResult :=
  match parse_fen_to_bitboards fen with
  | .error e => .error e
  | .ok (pieces, gs) =>
    match generate_all_moves pieces gs with
    | .error e => .error e
    | .ok all_moves =>
      match all_moves with
      | [] => .ok { move := none, score := 0, nodes := 0 }
      | m :: _ =>
        match square_to_algebraic m.1 with
        | .error e => .error e
        | .ok _ => .error .attributeError

/-- Translation of ChessEvaluator.get_best_move: the body runs inside
`try ... except Exception`, and any exception is converted into the fallback
result `{'move': None, 'score': 0, 'nodes': 0}`. -/
def get_best_move (fen : String) (depth : Int) : EngineResult :=
  match getBestMoveBody fen depth with
  | .ok r => r
  | .error _ => { move := none, score := 0, nodes := 0 }

/-- Modelled from the spec (§3.2 and §4.3, for comparison with
index_to_algebraic): the encoder of the claimed coordinate system, file
letter `chr(ord('a') + sq % 8)` followed by rank digit `sq / 8 + 1`. -/
def spec_encode_square (sq : Nat) : String :=
  String.mk [Char.ofNat (sq % 8 + 97)] ++ toString (sq / 8 + 1)

/-- Modelled from the spec (§4.2, for comparison with KING_ATTACKS): the set
of on-board squares exactly one king step away from sq, one step in each of
the eight directions. -/
def spec_king_attacks (sq : Nat) : Nat :=
  let row : Int := sq / 8
  let col : Int := sq % 8
  king_dirs.foldl
    (fun acc d =>
      let r := row + d.1
      let c := col + d.2
      if 0 ≤ r ∧ r < 8 ∧ 0 ≤ c ∧ c < 8 then set_bit acc (r * 8 + c).toNat else acc)
    0

/-- FEN of the standard starting position. -/
def startPosFEN : String := "rnbqkbnr/pppppppp/8/8/8/8/PPPPPPPP/RNBQKBNR w KQkq - 0 1"

/-- FEN of the position after 1.e4, as written in the repository test
test_generate_all_moves_black. -/
def afterE4FEN : String := "rnbqkbnr/pppppppp/8/8/4P3/8/PPPP1PPP/RNBQKBNR b KQkq - 0 1"

/-- FEN of the mate-in-one position of the spec (§8.4) and of the repository
test test_checkmate_in_one. -/
def mateInOneFEN : String := "r1bqkb1r/pppp1Qpp/2n2n2/4p3/2B1P3/8/PPPP1PPP/RNB1K1NR w KQkq - 0 4"

/-- FEN after 1.e4 a6 2.e5 d5: the en passant target is d6, the black pawn
that just pushed stands on d5 (square 35) and the white pawn that could
capture it en passant stands on e5 (square 36). -/
def epFEN : String := "rnbqkbnr/1pp1pppp/p7/3pP3/8/8/PPPP1PPP/RNBQKBNR w KQkq d6 0 3"

/-- FEN with a white knight on a1 that can capture the black pawn on c2
(square 10); the halfmove clock starts at 7. -/
def knightCaptureFEN : String := "k7/8/8/8/8/8/2p5/N6K w - - 7 1"

/-- FEN of a stalemate: Black to move, black king a8, white queen b6. -/
def staleFEN : String := "k7/8/1Q6/8/8/8/8/7K b - - 0 1"

/-- FEN of a kings-and-pawns endgame (raw phase 0). -/
def kingsPawnsFEN : String := "4k3/pppppppp/8/8/8/8/PPPPPPPP/4K3 w - - 0 1"

/-- Pieces of a FEN that parses successfully (test-vector helper). -/
def posOfFen (fen : String) : Pieces :=
  match parse_fen_to_bitboards fen with
  | .ok pg => pg.1
  | .error _ => {}

/-- Game state of a FEN that parses successfully (test-vector helper). -/
def gsOfFen (fen : String) : GameState :=
  match parse_fen_to_bitboards fen with
  | .ok pg => pg.2
  | .error _ =>
    { side_to_move := "w", castling_rights := "", en_passant := none,
      halfmove_clock := 0, fullmove_number := 1 }

set_option maxRecDepth 400000

/-- C2: the claim says the decoded starting position yields exactly 20 legal
moves for White and, after e2e4 is applied, exactly 20 for Black.  The first
half holds.  The second half fails on the code: applying e2e4 through
make_move raises AttributeError at its entry print (the missing
board_utils.square_to_algebraic), so the executor never produces the after-e4
position.  The move generator itself does give Black exactly 20 legal moves
on the after-e4 position decoded directly from FEN, confirming that the slip
is localized in make_move's debug print. -/
theorem C2_twenty_moves_but_executor_raises :
    ((parse_fen_to_bitboards startPosFEN).bind fun pg =>
        (generate_all_moves pg.1 pg.2).map List.length) = .ok 20 ∧
    ((parse_fen_to_bitboards startPosFEN).bind fun pg =>
        make_move pg.1 (12, 28) pg.2) = .error .attributeError ∧
    ((parse_fen_to_bitboards afterE4FEN).bind fun pg =>
        (generate_all_moves pg.1 pg.2).map List.length) = .ok 20 :=
  ⟨rfl, rfl, rfl⟩

/-- C1: the claim says get_best_move on the mate-in-one FEN returns move
"f7e8" at every depth ≥ 1.  In the source, once the legal moves are generated
(the list is non-empty here), the debug-print loop calls
board_utils.square_to_algebraic, which does not exist, so AttributeError is
raised and the blanket handler returns the fallback result with no move:
the mating move is never produced. -/
theorem C1_mate_in_one_returns_no_move :
    getBestMoveBody mateInOneFEN 3 = .error .attributeError ∧
    get_best_move mateInOneFEN 3 = { move := none, score := 0, nodes := 0 } :=
  ⟨rfl, rfl⟩

/-- C3: the claim says KING_ATTACKS[sq] holds the king-step targets of every
square.  The king section of initialize_attack_tables sits outside the
per-square loop, so the table stays all zeros; at square 4 (e1) the spec's
king-step set is d1, f1, d2, e2, f2 (bitboard 14376), which the table does
not contain. -/
theorem C3_king_attacks_left_empty :
    KING_ATTACKS = List.replicate 64 0 ∧
    spec_king_attacks 4 = 14376 ∧
    KING_ATTACKS.getD 4 0 ≠ spec_king_attacks 4 :=
  ⟨rfl, rfl, by decide⟩

/-- C4: the claim says the square encoder maps index 0 to "a1" and 56 to
"a8" (rank digit `sq / 8 + 1`).  The source's index_to_algebraic computes the
rank as `8 - index // 8`, giving the vertically flipped result: 0 encodes as
"a8" and 56 as "a1", contradicting the claimed encoder (and the repository
test test_algebraic_conversions). -/
theorem C4_encoder_rank_flipped :
    index_to_algebraic 0 = "a8" ∧ index_to_algebraic 56 = "a1" ∧
    index_to_algebraic 28 = "e5" ∧
    spec_encode_square 0 = "a1" ∧ spec_encode_square 56 = "a8" ∧
    index_to_algebraic 0 ≠ spec_encode_square 0 :=
  ⟨rfl, rfl, rfl, rfl, rfl, by decide⟩

/-- C5: the claim says a position with an en passant target and an adjacent
enemy pawn yields the ep capture in the legal move list and that make_move
removes the captured pawn.  In epFEN the target d6 parses (through the
flipped algebraic_to_index) to 19, the capture configuration is on squares
35/36, yet generate_all_moves emits no move (36, 43) (e5xd6); and make_move
applied to (36, 43) raises AttributeError at its entry print, so it removes
no pawn either. -/
theorem C5_en_passant_capture_missing :
    ((parse_fen_to_bitboards epFEN).map fun pg => pg.2.en_passant) = .ok (some 19) ∧
    ((parse_fen_to_bitboards epFEN).map fun pg =>
        (get_bit pg.1.W_PAWNS 36, get_bit pg.1.B_PAWNS 35)) = .ok (true, true) ∧
    ((parse_fen_to_bitboards epFEN).bind fun pg =>
        (generate_all_moves pg.1 pg.2).map fun l => l.contains (36, 43)) = .ok false ∧
    ((parse_fen_to_bitboards epFEN).bind fun pg =>
        make_move pg.1 (36, 43) pg.2) = .error .attributeError :=
  ⟨rfl, rfl, rfl, rfl⟩

/-- C6: the claim says make_move resets the halfmove clock to 0 on every
capture and increments it only on non-capture non-pawn moves.  For the legal
knight capture a1xc2 ((0, 10) in knightCaptureFEN, incoming clock 7),
make_move raises AttributeError at its entry print and never produces any
halfmove clock at all, so the claimed clock behavior does not hold of the
code. -/
theorem C6_make_move_raises_no_clock :
    ((parse_fen_to_bitboards knightCaptureFEN).map fun pg => pg.2.halfmove_clock) = .ok 7 ∧
    ((parse_fen_to_bitboards knightCaptureFEN).map fun pg =>
        get_bit pg.1.ALL_PIECES 10) = .ok true ∧
    ((parse_fen_to_bitboards knightCaptureFEN).bind fun pg =>
        (generate_all_moves pg.1 pg.2).map fun l => l.contains (0, 10)) = .ok true ∧
    ((parse_fen_to_bitboards knightCaptureFEN).bind fun pg =>
        make_move pg.1 (0, 10) pg.2) = .error .attributeError :=
  ⟨rfl, rfl, rfl, rfl⟩

/-- C7: whenever the parsed position admits no legal move (checkmate or
stalemate for the source's move generator), get_best_move returns a result
with no move and score 0, through the normal return of the body rather than
through the exception fallback. -/
theorem C7_no_moves_is_normal_no_move_result (fen : String) (d : Int) (p : Pieces)
    (gs : GameState) (hparse : parse_fen_to_bitboards fen = .ok (p, gs))
    (hmoves : generate_all_moves p gs = .ok []) :
    getBestMoveBody fen d = .ok { move := none, score := 0, nodes := 0 } ∧
    get_best_move fen d = { move := none, score := 0, nodes := 0 } := by
  have hb : getBestMoveBody fen d = .ok { move := none, score := 0, nodes := 0 } := by
    unfold getBestMoveBody
    rw [hparse]
    dsimp only
    rw [hmoves]
  refine ⟨hb, ?_⟩
  unfold get_best_move
  rw [hb]

/-- C7 witness: the stalemate position staleFEN parses, has no legal move,
and get_best_move reports the no-move result. -/
theorem C7_witness :
    get_best_move staleFEN 4 = { move := none, score := 0, nodes := 0 } :=
  (C7_no_moves_is_normal_no_move_result staleFEN 4 (posOfFen staleFEN) (gsOfFen staleFEN)
    rfl rfl).2

/-- C8: the depth cap is honoured extensionally: get_best_move at depth 100
equals get_best_move at depth 6, and more generally the result at any depth
equals the result at the depth clamped into [1, 6].  In the source the depth
only influences the search loop, which is unreachable (C1), so the result
never depends on the requested depth. -/
theorem C8_depth_cap_honoured (fen : String) :
    get_best_move fen 100 = get_best_move fen 6 ∧
    ∀ d : Int, get_best_move fen d = get_best_move fen (max 1 (min d 6)) :=
  ⟨rfl, fun _ => rfl⟩

/-- C9: get_game_phase always lies in [0, 256]; it equals 256 whenever the
raw phase (knights + bishops + 2 rooks + 4 queens over both colors) is 24,
the starting material, and equals 0 when only kings and pawns remain. -/
theorem C9_game_phase_bounds (p : Pieces) :
    get_game_phase p ≤ 256 ∧
    (count_bits (p.W_KNIGHTS ||| p.B_KNIGHTS) + count_bits (p.W_BISHOPS ||| p.B_BISHOPS) +
        2 * count_bits (p.W_ROOKS ||| p.B_ROOKS) +
        4 * count_bits (p.W_QUEENS ||| p.B_QUEENS) = 24 →
      get_game_phase p = 256) ∧
    (p.W_KNIGHTS ||| p.B_KNIGHTS = 0 ∧ p.W_BISHOPS ||| p.B_BISHOPS = 0 ∧
        p.W_ROOKS ||| p.B_ROOKS = 0 ∧ p.W_QUEENS ||| p.B_QUEENS = 0 →
      get_game_phase p = 0) := by
  refine ⟨?_, ?_, ?_⟩
  · simp only [get_game_phase]
    split
    · exact le_refl 256
    · omega
  · intro h
    simp only [get_game_phase, h]
    decide
  · rintro ⟨h1, h2, h3, h4⟩
    simp only [get_game_phase, h1, h2, h3, h4]
    decide

/-- C9 witness: the parsed starting position has phase 256 and the parsed
kings-and-pawns position has phase 0. -/
theorem C9_witness :
    get_game_phase (posOfFen startPosFEN) = 256 ∧
    get_game_phase (posOfFen kingsPawnsFEN) = 0 :=
  ⟨(C9_game_phase_bounds (posOfFen startPosFEN)).2.1 (by decide),
   (C9_game_phase_bounds (posOfFen kingsPawnsFEN)).2.2 (by decide)⟩

/-- C10: get_best_move is total at its interface: for every FEN string and
depth it produces an EngineResult, equal to the body's value when the body
returns normally and to the fallback result with no move, score 0 and
0 nodes whenever the body raises any exception. -/
theorem C10_exceptions_become_fallback (fen : String) (d : Int) :
    (∀ e, getBestMoveBody fen d = .error e →
        get_best_move fen d = { move := none, score := 0, nodes := 0 }) ∧
    (∀ r, getBestMoveBody fen d = .ok r → get_best_move fen d = r) := by
  constructor
  · intro e he
    unfold get_best_move
    rw [he]
  · intro r hr
    unfold get_best_move
    rw [hr]

/-- C10 witness: the FEN "N" (a lone white knight) drives the body into an
exception (the legality scan attacks square -1 and the rook ray walk raises
ValueError), and get_best_move returns the fallback result. -/
theorem C10_witness :
    getBestMoveBody "N" 1 = .error .valueError ∧
    get_best_move "N" 1 = { move := none, score := 0, nodes := 0 } :=
  ⟨rfl, (C10_exceptions_become_fallback "N" 1).1 .valueError rfl⟩
